import Mathlib

/-!
Verification of the e-commerce backend in `main.py` (FastAPI + SQLAlchemy).

The database is modelled as explicit lists of rows with per-table
autoincrement counters.  Python floats (prices, amounts) are modelled as
rationals; nullable columns as `Option`; `HTTPException` as an explicit
error value carried by `Except`.  Each route handler becomes a pure
function on the database state; `raise` before any write returns the
input state unchanged, mirroring the fact that nothing was committed.
-/

deriving instance DecidableEq for Except

namespace Shop

/-- A FastAPI `HTTPException`: status code and detail message. -/
structure ApiError where
  status : Nat
  detail : String
deriving DecidableEq

/-- SQLAlchemy `Product` row (`main.py` lines 68-79).  `currency` and
`stock` are nullable columns (`Column(String, default="USD")`,
`Column(Integer, default=0)` are nullable in SQLAlchemy). -/
structure Product where
  id : Nat
  name : String
  description : Option String
  price : ℚ
  currency : Option String
  sku : Option String
  stock : Option Int
deriving DecidableEq

/-- SQLAlchemy `CartItem` row (`main.py` lines 82-91). -/
structure CartItem where
  id : Nat
  user_id : Nat
  product_id : Nat
  quantity : Int
deriving DecidableEq

/-- SQLAlchemy `Order` row (`main.py` lines 94-105). -/
structure Order where
  id : Nat
  user_id : Nat
  total_amount : ℚ
  currency : String
  status : String
  invoice_path : Option String
deriving DecidableEq

/-- SQLAlchemy `OrderItem` row (`main.py` lines 108-119): the frozen
snapshot of the product at order time. -/
structure OrderItem where
  id : Nat
  order_id : Nat
  product_id : Nat
  name_snapshot : String
  unit_price : ℚ
  quantity : Int
  subtotal : ℚ
deriving DecidableEq

/-- The relational state: one list per table plus autoincrement counters. -/
structure DB where
  products : List Product
  cart_items : List CartItem
  orders : List Order
  order_items : List OrderItem
  next_product_id : Nat
  next_cart_item_id : Nat
  next_order_id : Nat
  next_order_item_id : Nat
deriving DecidableEq

/-- Pydantic `ProductCreate` after validation (`main.py` lines 193-199). -/
structure ProductCreate where
  name : String
  description : Option String
  price : ℚ
  currency : String
  sku : Option String
  stock : Int
deriving DecidableEq

/-- A raw product create/update body: `none` marks a field the caller
omitted (`name` and `price` are required by the schema). -/
structure ProductBody where
  name : String
  description : Option String
  price : ℚ
  currency : Option String
  sku : Option String
  stock : Option Int
deriving DecidableEq

/-- Pydantic validation of `ProductCreate`: omitted optional fields take
the schema defaults (`currency = "USD"`, `stock = 0`, others `None`). -/
def ProductBody.validate (b : ProductBody) : ProductCreate :=
  { name := b.name, description := b.description, price := b.price,
    currency := b.currency.getD "USD", sku := b.sku, stock := b.stock.getD 0 }

/-- Response schema `CartItemOut` (`main.py` lines 217-223). -/
structure CartItemOut where
  id : Nat
  product_id : Nat
  product_name : String
  unit_price : ℚ
  quantity : Int
  subtotal : ℚ
deriving DecidableEq

/-- Response schema `CheckoutOut` (`main.py` lines 225-229). -/
structure CheckoutOut where
  order_id : Nat
  total_amount : ℚ
  currency : String
  invoice_url : String
deriving DecidableEq

/-- Response schema `OrderItemOut` (`main.py` lines 231-236). -/
structure OrderItemOut where
  product_id : Nat
  name_snapshot : String
  unit_price : ℚ
  quantity : Int
  subtotal : ℚ
deriving DecidableEq

/-- Response schema `OrderOut` (`main.py` lines 238-244, minus timestamp). -/
structure OrderOut where
  id : Nat
  total_amount : ℚ
  currency : String
  status : String
  items : List OrderItemOut
deriving DecidableEq

/-- POST /products (`main.py` lines 289-299). -/
def create_product (req : ProductCreate) (db : DB) : DB × Product :=
  let p : Product :=
    { id := db.next_product_id, name := req.name,
      description := req.description, price := req.price,
      currency := some req.currency, sku := req.sku, stock := some req.stock }
  ({ db with products := db.products ++ [p],
             next_product_id := db.next_product_id + 1 }, p)

/-- PUT /products/{id} (`main.py` lines 312-326): every column named by
`ProductCreate.model_dump()` is overwritten with the request's value. -/
def update_product (pid : Nat) (req : ProductCreate) (db : DB) :
    Except ApiError (DB × Product) :=
  match db.products.find? (fun p => p.id == pid) with
  | none => .error ⟨404, "Product not found"⟩
  | some p =>
    let p2 : Product :=
      { p with
        name := req.name,
        description := req.description,
        price := req.price,
        currency := some req.currency,
        sku := req.sku,
        stock := some req.stock }
    .ok ({ db with products := db.products.map (fun q => if q.id == pid then p2 else q) }, p2)

/-- DELETE /products/{id} (`main.py` lines 328-339).  The relationship
`Product.order_items` carries `cascade="all, delete"` (line 79), so
deleting the product also deletes every OrderItem referencing it. -/
def delete_product (pid : Nat) (db : DB) : Except ApiError DB :=
  match db.products.find? (fun p => p.id == pid) with
  | none => .error ⟨404, "Product not found"⟩
  | some _ =>
    .ok { db with
      products := db.products.filter (fun p => p.id != pid),
      order_items := db.order_items.filter (fun oi => oi.product_id != pid) }

/-- Python test `product.stock is not None and qty > product.stock`. -/
def stockInsufficient (stock : Option Int) (qty : Int) : Bool :=
  match stock with
  | some s => qty > s
  | none => false

/-- POST /cart/add (`main.py` lines 344-379).  Pydantic rejects
`quantity < 1` (422); the stock check compares only the requested
quantity; an existing (user, product) row is merged by summing. -/
def add_to_cart (uid : Nat) (pid : Nat) (qty : Int) (db : DB) :
    Except ApiError (DB × CartItemOut) :=
  if qty < 1 then .error ⟨422, "Unprocessable Entity"⟩ else
  match db.products.find? (fun p => p.id == pid) with
  | none => .error ⟨404, "Product not found"⟩
  | some product =>
    if stockInsufficient product.stock qty then .error ⟨400, "Not enough stock"⟩ else
    match db.cart_items.find? (fun ci => ci.user_id == uid && ci.product_id == pid) with
    | some existing =>
      let q2 := existing.quantity + qty
      let merged := db.cart_items.map (fun ci => if ci.id == existing.id then { ci with quantity := q2 } else ci)
      let out : CartItemOut :=
        { id := existing.id,
          product_id := product.id,
          product_name := product.name,
          unit_price := product.price,
          quantity := q2,
          subtotal := product.price * (q2 : ℚ) }
      .ok ({ db with cart_items := merged }, out)
    | none =>
      let item : CartItem :=
        { id := db.next_cart_item_id, user_id := uid, product_id := pid, quantity := qty }
      let out : CartItemOut :=
        { id := item.id,
          product_id := product.id,
          product_name := product.name,
          unit_price := product.price,
          quantity := qty,
          subtotal := product.price * (qty : ℚ) }
      .ok ({ db with
             cart_items := db.cart_items ++ [item],
             next_cart_item_id := db.next_cart_item_id + 1 }, out)

/-- Loop body of GET /cart: each row dereferences `ci.product`; a missing
product would raise `AttributeError`, surfaced by FastAPI as a 500. -/
def cartOuts (db : DB) : List CartItem → Except ApiError (List CartItemOut)
  | [] => .ok []
  | ci :: rest =>
    match db.products.find? (fun p => p.id == ci.product_id) with
    | none => .error ⟨500, "Internal Server Error"⟩
    | some p =>
      match cartOuts db rest with
      | .error e => .error e
      | .ok outs =>
        let out : CartItemOut :=
          { id := ci.id,
            product_id := ci.product_id,
            product_name := p.name,
            unit_price := p.price,
            quantity := ci.quantity,
            subtotal := p.price * (ci.quantity : ℚ) }
        .ok (out :: outs)

/-- GET /cart (`main.py` lines 381-394). -/
def view_cart (uid : Nat) (db : DB) : Except ApiError (List CartItemOut) :=
  cartOuts db (db.cart_items.filter (fun ci => ci.user_id == uid))

/-- PUT /cart/{item_id} (`main.py` lines 396-419): ownership check folded
into the not-found check; stock check against the requested quantity. -/
def update_cart_item (uid : Nat) (item_id : Nat) (qty : Int) (db : DB) :
    Except ApiError (DB × CartItemOut) :=
  if qty < 1 then .error ⟨422, "Unprocessable Entity"⟩ else
  match db.cart_items.find? (fun ci => ci.id == item_id) with
  | none => .error ⟨404, "Cart item not found"⟩
  | some ci =>
    if ci.user_id != uid then .error ⟨404, "Cart item not found"⟩ else
    match db.products.find? (fun p => p.id == ci.product_id) with
    | none => .error ⟨500, "Internal Server Error"⟩
    | some product =>
      if stockInsufficient product.stock qty then .error ⟨400, "Not enough stock"⟩ else
      let updated := db.cart_items.map (fun c => if c.id == item_id then { c with quantity := qty } else c)
      let out : CartItemOut :=
        { id := ci.id,
          product_id := ci.product_id,
          product_name := product.name,
          unit_price := product.price,
          quantity := qty,
          subtotal := product.price * (qty : ℚ) }
      .ok ({ db with cart_items := updated }, out)

/-- DELETE /cart/{item_id} (`main.py` lines 421-428). -/
def remove_cart_item (uid : Nat) (item_id : Nat) (db : DB) : Except ApiError DB :=
  match db.cart_items.find? (fun ci => ci.id == item_id) with
  | none => .error ⟨404, "Cart item not found"⟩
  | some ci =>
    if ci.user_id != uid then .error ⟨404, "Cart item not found"⟩ else
    .ok { db with cart_items := db.cart_items.filter (fun c => c.id != item_id) }

/-- DELETE /cart (`main.py` lines 430-434). -/
def clear_cart (uid : Nat) (db : DB) : DB :=
  { db with cart_items := db.cart_items.filter (fun ci => ci.user_id != uid) }

/-- Python `product.currency or currency`: `None` and `""` are falsy. -/
def orCurrency (c : Option String) (acc : String) : String :=
  match c with
  | some s => if s = "" then acc else s
  | none => acc

/-- Validation loop of /checkout (`main.py` lines 498-506): accumulates
the total and the currency, raising on the first stock violation.  A
missing product would raise `AttributeError` at `product.stock` (500). -/
def validateCart (db : DB) : List CartItem → ℚ → String → Except ApiError (ℚ × String)
  | [], total, currency => .ok (total, currency)
  | ci :: rest, total, currency =>
    match db.products.find? (fun p => p.id == ci.product_id) with
    | none => .error ⟨500, "Internal Server Error"⟩
    | some product =>
      if stockInsufficient product.stock ci.quantity then
        .error ⟨400, "Not enough stock for " ++ product.name⟩
      else
        validateCart db rest (total + product.price * (ci.quantity : ℚ))
          (orCurrency product.currency currency)

/-- Python `max(0, product.stock - ci.quantity)` on a tracked stock. -/
def decStock (stock : Option Int) (qty : Int) : Option Int :=
  match stock with
  | some s => some (max 0 (s - qty))
  | none => none

/-- One iteration of the second /checkout loop (`main.py` lines 515-527):
add one OrderItem snapshot of `product` for the cart line `ci` and
floor-decrement the product's tracked stock. -/
def applyItem (oid : Nat) (ci : CartItem) (product : Product) (db : DB) : DB :=
  let oi : OrderItem :=
    { id := db.next_order_item_id,
      order_id := oid,
      product_id := product.id,
      name_snapshot := product.name,
      unit_price := product.price,
      quantity := ci.quantity,
      subtotal := product.price * (ci.quantity : ℚ) }
  let prods := db.products.map (fun p => if p.id == product.id then { p with stock := decStock p.stock ci.quantity } else p)
  { db with
    order_items := db.order_items ++ [oi],
    next_order_item_id := db.next_order_item_id + 1,
    products := prods }

/-- Second loop of /checkout (`main.py` lines 514-527): create one
OrderItem snapshot per cart line and floor-decrement tracked stock.  The
product was already dereferenced by the validation loop, so the `none`
branch is unreachable on the success path. -/
def createItems (order_id : Nat) : List CartItem → DB → DB
  | [], db => db
  | ci :: rest, db =>
    match db.products.find? (fun p => p.id == ci.product_id) with
    | none => createItems order_id rest db
    | some product => createItems order_id rest (applyItem order_id ci product db)

/-- Success path of /checkout after validation (`main.py` lines 508-548):
create the order, create its items and decrement stock, clear the cart,
generate the invoice and record its path. -/
def checkoutSuccess (uid : Nat) (db : DB) (cart : List CartItem)
    (total : ℚ) (currency : String) : CheckoutOut × DB :=
  let order : Order :=
    { id := db.next_order_id,
      user_id := uid,
      total_amount := total,
      currency := currency,
      status := "PAID",
      invoice_path := none }
  let db1 : DB :=
    { db with
      orders := db.orders ++ [order],
      next_order_id := db.next_order_id + 1 }
  let db2 := createItems order.id cart db1
  let db3 : DB := { db2 with cart_items := db2.cart_items.filter (fun ci => ci.user_id != uid) }
  let path := "./invoices/invoice_order_" ++ toString order.id ++ ".pdf"
  let db4 : DB := { db3 with orders := db3.orders.map (fun o => if o.id == order.id then { o with invoice_path := some path } else o) }
  let out : CheckoutOut :=
    { order_id := order.id,
      total_amount := total,
      currency := currency,
      invoice_url := "/orders/" ++ toString order.id ++ "/invoice" }
  (out, db4)

/-- POST /checkout (`main.py` lines 492-548).  The returned state is the
database after the call: any `raise` happens before the first write, so
every error path returns the input state. -/
def checkout (uid : Nat) (db : DB) : Except ApiError CheckoutOut × DB :=
  let cart := db.cart_items.filter (fun ci => ci.user_id == uid)
  if cart.isEmpty then (.error ⟨400, "Cart is empty"⟩, db) else
  match validateCart db cart 0 "USD" with
  | .error e => (.error e, db)
  | .ok (total, currency) =>
    let r := checkoutSuccess uid db cart total currency
    (.ok r.1, r.2)

/-- View of one OrderItem row as the `OrderItemOut` response schema. -/
def OrderItem.toOut (oi : OrderItem) : OrderItemOut :=
  { product_id := oi.product_id,
    name_snapshot := oi.name_snapshot,
    unit_price := oi.unit_price,
    quantity := oi.quantity,
    subtotal := oi.subtotal }

/-- Item snapshots of one order, as returned by the order routes. -/
def orderItemsOf (db : DB) (oid : Nat) : List OrderItemOut :=
  (db.order_items.filter (fun oi => oi.order_id == oid)).map OrderItem.toOut

/-- GET /orders/{order_id} (`main.py` lines 581-601): a missing order and
an order owned by another user produce the identical 404. -/
def get_order (uid : Nat) (oid : Nat) (db : DB) : Except ApiError OrderOut :=
  match db.orders.find? (fun o => o.id == oid) with
  | none => .error ⟨404, "Order not found"⟩
  | some o =>
    if o.user_id != uid then .error ⟨404, "Order not found"⟩ else
    .ok
      { id := o.id,
        total_amount := o.total_amount,
        currency := o.currency,
        status := o.status,
        items := orderItemsOf db o.id }

/-- The cart/checkout operations as database transformers (responses
discarded; an error response leaves the state as the handler returned it,
which for these handlers is the input state). -/
inductive CartOp where
  | addCart (uid pid : Nat) (qty : Int)
  | setQty (uid item_id : Nat) (qty : Int)
  | removeItem (uid item_id : Nat)
  | clearAll (uid : Nat)
  | doCheckout (uid : Nat)
deriving DecidableEq

/-- Apply one cart/checkout operation to the database. -/
def applyCartOp (op : CartOp) (db : DB) : DB :=
  match op with
  | .addCart uid pid qty =>
    match add_to_cart uid pid qty db with
    | .ok r => r.1
    | .error _ => db
  | .setQty uid iid qty =>
    match update_cart_item uid iid qty db with
    | .ok r => r.1
    | .error _ => db
  | .removeItem uid iid =>
    match remove_cart_item uid iid db with
    | .ok db2 => db2
    | .error _ => db
  | .clearAll uid => clear_cart uid db
  | .doCheckout uid => (checkout uid db).2

/-- Price and name of a product id: the catalog view untouched by stock
decrements. -/
def priceNameOf (db : DB) (pid : Nat) : Option (ℚ × String) :=
  (db.products.find? (fun p => p.id == pid)).map (fun p => (p.price, p.name))

/-- Sum of the subtotal columns of a list of OrderItems. -/
def sumSubtotals (l : List OrderItem) : ℚ := (l.map OrderItem.subtotal).sum

/-- At most one CartItem row per (user, product) pairing. -/
def CartUnique (db : DB) : Prop :=
  db.cart_items.Pairwise (fun a b => a.user_id ≠ b.user_id ∨ a.product_id ≠ b.product_id)

/-- Bool test that a tracked stock count is nonnegative. -/
def stockOk (s : Option Int) : Bool :=
  match s with
  | some v => decide (0 ≤ v)
  | none => true

/-- Every tracked stock in the catalog is nonnegative. -/
def StocksNonneg (db : DB) : Prop := ∀ p ∈ db.products, stockOk p.stock = true

instance (db : DB) : Decidable (CartUnique db) :=
  inferInstanceAs (Decidable (db.cart_items.Pairwise fun (a b : CartItem) =>
    a.user_id ≠ b.user_id ∨ a.product_id ≠ b.product_id))

instance (db : DB) : Decidable (StocksNonneg db) :=
  inferInstanceAs (Decidable (∀ p ∈ db.products, stockOk p.stock = true))

/-- Python truthiness of an optional currency string: `None` and `""` are
falsy and yield nothing. -/
def truthyOf (c : Option String) : Option String :=
  match c with
  | some s => if s = "" then none else some s
  | none => none

/-- Last truthy currency in a list, scanning left to right. -/
def lastTruthy : List (Option String) → Option String
  | [] => none
  | c :: rest =>
    match lastTruthy rest with
    | some s => some s
    | none => truthyOf c

/-- Currencies of the products referenced by cart lines, in processing
order (a dangling reference contributes `none`). -/
def cartCurrencies (db : DB) (l : List CartItem) : List (Option String) :=
  l.map (fun ci =>
    match db.products.find? (fun p => p.id == ci.product_id) with
    | some p => p.currency
    | none => none)

/-- An update body in which the caller names only `name` and `price`. -/
def bodyNamePrice (n : String) (pr : ℚ) : ProductBody :=
  ⟨n, none, pr, none, none, none⟩

/-- A catalog product: price 10, stock 5. -/
def prodP : Product := ⟨1, "P", none, 10, some "USD", none, some 5⟩

/-- One user, product `prodP`, a cart line of quantity 3. -/
def dbMain : DB := ⟨[prodP], [⟨1, 1, 1, 3⟩], [], [], 2, 2, 1, 1⟩

/-- Same catalog, but the cart requests 7 > 5 units. -/
def dbShort : DB := { dbMain with cart_items := [⟨1, 1, 1, 7⟩] }

/-- Same catalog, with an existing cart row of quantity 4. -/
def dbMerge : DB := { dbMain with cart_items := [⟨1, 1, 1, 4⟩] }

/-- Same catalog, with an existing cart row of quantity 2. -/
def dbPair : DB := { dbMain with cart_items := [⟨1, 1, 1, 2⟩] }

/-- Product priced in EUR. -/
def prodA : Product := ⟨1, "A", none, 1, some "EUR", none, some 5⟩

/-- Product whose currency column holds the empty string. -/
def prodB : Product := ⟨2, "B", none, 2, some "", none, some 5⟩

/-- A cart holding an EUR-priced line followed by an empty-currency line. -/
def dbMixed : DB := ⟨[prodA, prodB], [⟨1, 1, 1, 1⟩, ⟨2, 1, 2, 1⟩], [], [], 3, 3, 1, 1⟩

/-- An already-completed order of 3 units of `prodP`, total 30. -/
def dbHist : DB := ⟨[prodP], [], [⟨1, 1, 30, "USD", "PAID", none⟩], [⟨1, 1, 1, "P", 10, 3, 30⟩], 2, 2, 2, 2⟩

/-- Order id 10 and cart item id 20, both owned by user 2. -/
def dbOwn : DB := ⟨[prodP], [⟨20, 2, 1, 1⟩], [⟨10, 2, 30, "USD", "PAID", none⟩], [], 2, 21, 11, 1⟩

/-- A create request carrying a negative stock count, which the schema
does not reject. -/
def reqNeg : ProductCreate := ⟨"N", none, 1, "USD", none, -3⟩

/-- The empty database. -/
def emptyDB : DB := ⟨[], [], [], [], 1, 1, 1, 1⟩

lemma createItems_cart_items (oid : Nat) (l : List CartItem) (db : DB) :
    (createItems oid l db).cart_items = db.cart_items := by
  induction l generalizing db with
  | nil => rfl
  | cons ci rest ih =>
    simp only [createItems]
    split
    · exact ih db
    · exact ih _

lemma createItems_orders (oid : Nat) (l : List CartItem) (db : DB) :
    (createItems oid l db).orders = db.orders := by
  induction l generalizing db with
  | nil => rfl
  | cons ci rest ih =>
    simp only [createItems]
    split
    · exact ih db
    · exact ih _

lemma checkoutSuccess_cart_items (uid : Nat) (db : DB) (cart : List CartItem)
    (T : ℚ) (C : String) :
    (checkoutSuccess uid db cart T C).2.cart_items =
      db.cart_items.filter (fun ci => ci.user_id != uid) := by
  unfold checkoutSuccess
  dsimp only
  rw [createItems_cart_items]

lemma checkout_ok_elim (uid : Nat) (db : DB) (out : CheckoutOut) (db2 : DB)
    (hc : checkout uid db = (.ok out, db2)) :
    ∃ T C,
      validateCart db (db.cart_items.filter (fun ci => ci.user_id == uid)) 0 "USD" = .ok (T, C) ∧
      checkoutSuccess uid db (db.cart_items.filter (fun ci => ci.user_id == uid)) T C = (out, db2) := by
  simp only [checkout] at hc
  split at hc
  · exact absurd (congrArg Prod.fst hc) (by simp)
  · split at hc
    · exact absurd (congrArg Prod.fst hc) (by simp)
    · next T C heq =>
      refine ⟨T, C, heq, ?_⟩
      have h1 := congrArg Prod.fst hc
      have h2 := congrArg Prod.snd hc
      simp only at h1 h2
      injection h1 with h1
      rw [Prod.ext_iff]
      exact ⟨h1, h2⟩

lemma checkout_error_elim (uid : Nat) (db : DB) (e : ApiError) (db2 : DB)
    (hc : checkout uid db = (.error e, db2)) :
    db2 = db ∧
    (e = ⟨400, "Cart is empty"⟩ ∨
      validateCart db (db.cart_items.filter (fun ci => ci.user_id == uid)) 0 "USD" = .error e) := by
  simp only [checkout] at hc
  split at hc
  · have h1 := congrArg Prod.fst hc
    have h2 := congrArg Prod.snd hc
    simp only at h1 h2
    injection h1 with h1
    exact ⟨h2.symm, .inl h1.symm⟩
  · split at hc
    · next e1 heq =>
      have h1 := congrArg Prod.fst hc
      have h2 := congrArg Prod.snd hc
      simp only at h1 h2
      injection h1 with h1
      rw [h1] at heq
      exact ⟨h2.symm, .inr heq⟩
    · exact absurd (congrArg Prod.fst hc) (by simp)

lemma stockInsufficient_iff {s : Option Int} {q : Int} :
    stockInsufficient s q = true ↔ ∃ v, s = some v ∧ v < q := by
  cases s with
  | none => simp [stockInsufficient]
  | some v => simp [stockInsufficient, gt_iff_lt]

lemma validateCart_error_cases (db : DB) (l : List CartItem) (t : ℚ) (c : String)
    (e : ApiError) (hv : validateCart db l t c = .error e) :
    e = ⟨500, "Internal Server Error"⟩ ∨
    ∃ ci ∈ l, ∃ p, db.products.find? (fun q => q.id == ci.product_id) = some p ∧
      ∃ s, p.stock = some s ∧ s < ci.quantity ∧
      e = ⟨400, "Not enough stock for " ++ p.name⟩ := by
  induction l generalizing t c with
  | nil => cases hv
  | cons ci rest ih =>
    simp only [validateCart] at hv
    split at hv
    · next hfind =>
      injection hv with hv
      exact .inl hv.symm
    · next product hfind =>
      split at hv
      · next hstock =>
        injection hv with hv
        obtain ⟨s, hs, hlt⟩ := stockInsufficient_iff.mp hstock
        exact .inr ⟨ci, List.mem_cons_self ci rest, product, hfind, s, hs, hlt, hv.symm⟩
      · rcases ih _ _ hv with h | ⟨ci2, hmem, rest2⟩
        · exact .inl h
        · exact .inr ⟨ci2, List.mem_cons_of_mem ci hmem, rest2⟩

/-- C1: when checkout fails with the insufficient-stock error (a 400
other than the empty-cart one), the database is returned exactly as it
was — no order, order item, stock decrement, or cart deletion — and the
error names an offending cart line whose quantity exceeds its product's
tracked stock. -/
theorem checkout_stock_failure_rollback (uid : Nat) (db : DB) (e : ApiError) (db2 : DB)
    (hc : checkout uid db = (.error e, db2)) :
    db2 = db ∧
    (e.status = 400 → e.detail ≠ "Cart is empty" →
      ∃ ci ∈ db.cart_items, ci.user_id = uid ∧
      ∃ p, db.products.find? (fun q => q.id == ci.product_id) = some p ∧
      ∃ s, p.stock = some s ∧ s < ci.quantity ∧
      e = ⟨400, "Not enough stock for " ++ p.name⟩) := by
  obtain ⟨hdb, hcase⟩ := checkout_error_elim uid db e db2 hc
  refine ⟨hdb, fun h400 hdetail => ?_⟩
  rcases hcase with hemp | hval
  · exact absurd (congrArg ApiError.detail hemp) hdetail
  · rcases validateCart_error_cases db _ 0 "USD" e hval with h500 | ⟨ci, hmem, p, hp, s, hs, hlt, he⟩
    · rw [h500] at h400
      cases h400
    · obtain ⟨hmem2, huid⟩ := List.mem_filter.mp hmem
      exact ⟨ci, hmem2, beq_iff_eq.mp huid, p, hp, s, hs, hlt, he⟩

/-- C1 witness: a cart of 7 units against stock 5 fails naming product P
and leaves the database untouched. -/
theorem checkout_stock_failure_rollback_witness :
    dbShort = dbShort ∧
    ((ApiError.mk 400 "Not enough stock for P").status = 400 →
      (ApiError.mk 400 "Not enough stock for P").detail ≠ "Cart is empty" →
      ∃ ci ∈ dbShort.cart_items, ci.user_id = 1 ∧
      ∃ p, dbShort.products.find? (fun q => q.id == ci.product_id) = some p ∧
      ∃ s, p.stock = some s ∧ s < ci.quantity ∧
      ApiError.mk 400 "Not enough stock for P" = ⟨400, "Not enough stock for " ++ p.name⟩) :=
  checkout_stock_failure_rollback 1 dbShort ⟨400, "Not enough stock for P"⟩ dbShort
    (by with_unfolding_all decide)

/-- C9: after every successful checkout the user's cart is empty —
listing the cart returns no items. -/
theorem checkout_clears_cart (uid : Nat) (db : DB) (out : CheckoutOut) (db2 : DB)
    (hc : checkout uid db = (.ok out, db2)) :
    view_cart uid db2 = .ok [] := by
  obtain ⟨T, C, hv, hs⟩ := checkout_ok_elim uid db out db2 hc
  have hdb2 : db2 = (checkoutSuccess uid db (db.cart_items.filter (fun ci => ci.user_id == uid)) T C).2 :=
    (congrArg Prod.snd hs).symm
  have hcart : db2.cart_items = db.cart_items.filter (fun ci => ci.user_id != uid) := by
    rw [hdb2, checkoutSuccess_cart_items]
  unfold view_cart
  rw [hcart]
  have hnil : (db.cart_items.filter (fun ci => ci.user_id != uid)).filter
      (fun ci => ci.user_id == uid) = [] := by
    rw [List.filter_eq_nil_iff]
    intro a ha
    have h2 := (List.mem_filter.mp ha).2
    simp only [bne_iff_ne, ne_eq] at h2
    simp [h2]
  rw [hnil]
  rfl

/-- C9 witness: checking out the three-unit cart of `dbMain` leaves an
empty cart listing. -/
theorem checkout_clears_cart_witness :
    view_cart 1 (checkout 1 dbMain).2 = .ok [] :=
  checkout_clears_cart 1 dbMain ⟨1, 30, "USD", "/orders/1/invoice"⟩
    (checkout 1 dbMain).2 (by with_unfolding_all decide)

/-- C3 counterexample: with tracked stock 5 and an existing cart row of
quantity 4, adding 3 more succeeds with merged quantity 7 exceeding the
stock, instead of failing with the insufficient-stock error. -/
theorem cart_add_cumulative_counterexample :
    (add_to_cart 1 1 3 dbMerge).map (fun r => r.2.quantity) = .ok 7 ∧
    (dbMerge.products.find? (fun p => p.id == 1)).map Product.stock = some (some 5) ∧
    (5 : Int) < 7 := by
  with_unfolding_all decide

/-- C3 amended: adding to the cart fails with the insufficient-stock
error exactly when the requested quantity alone exceeds the product's
tracked stock; when the requested quantity passes and a row for the same
(user, product) pairing exists, the quantities are summed into that row
with no re-check of the cumulative quantity against stock. -/
theorem cart_add_stock_check (db : DB) (uid pid : Nat) (qty : Int) (p : Product)
    (hq : 1 ≤ qty)
    (hp : db.products.find? (fun q => q.id == pid) = some p) :
    (stockInsufficient p.stock qty = true →
      add_to_cart uid pid qty db = .error ⟨400, "Not enough stock"⟩) ∧
    (stockInsufficient p.stock qty = false →
      ∀ ex, db.cart_items.find? (fun ci => ci.user_id == uid && ci.product_id == pid) = some ex →
        ∃ db2 out, add_to_cart uid pid qty db = .ok (db2, out) ∧
          out.quantity = ex.quantity + qty ∧
          db2.cart_items.length = db.cart_items.length ∧
          ∃ ci ∈ db2.cart_items, ci.id = ex.id ∧ ci.user_id = ex.user_id ∧
            ci.product_id = ex.product_id ∧ ci.quantity = ex.quantity + qty) := by
  have hq2 : ¬ qty < 1 := by omega
  constructor
  · intro hstock
    unfold add_to_cart
    rw [if_neg hq2, hp]
    dsimp only
    rw [if_pos hstock]
  · intro hstock ex hex
    unfold add_to_cart
    rw [if_neg hq2, hp]
    dsimp only
    rw [if_neg (by rw [hstock]; exact Bool.false_ne_true), hex]
    dsimp only
    refine ⟨_, _, rfl, rfl, (List.length_map _ _), ?_⟩
    have hmem : ex ∈ db.cart_items := List.mem_of_find?_eq_some hex
    refine ⟨{ ex with quantity := ex.quantity + qty }, ?_, rfl, rfl, rfl, rfl⟩
    have hfx : ({ ex with quantity := ex.quantity + qty } : CartItem) =
        (fun ci => if ci.id == ex.id then { ci with quantity := ex.quantity + qty } else ci) ex := by
      simp
    rw [hfx]
    exact List.mem_map_of_mem _ hmem

/-- C3 amended witness: stock 5, existing row of 4, request of 3: the
request passes the check and the merged row holds 7. -/
theorem cart_add_stock_check_witness :
    ∃ db2 out, add_to_cart 1 1 3 dbMerge = .ok (db2, out) ∧
      out.quantity = (4 : Int) + 3 ∧
      db2.cart_items.length = dbMerge.cart_items.length ∧
      ∃ ci ∈ db2.cart_items, ci.id = 1 ∧ ci.user_id = 1 ∧
        ci.product_id = 1 ∧ ci.quantity = (4 : Int) + 3 :=
  (cart_add_stock_check dbMerge 1 1 3 prodP (by decide) (by with_unfolding_all decide)).2
    (by decide) ⟨1, 1, 1, 4⟩ (by decide)

/-- C8: a caller asking for an order or cart item that is absent, or that
belongs to a different user, receives exactly the 404 not-found error of
the corresponding route — never a distinct forbidden error. -/
theorem ownership_not_found (db : DB) (uid oid iid : Nat)
    (ho : (db.orders.find? (fun o => o.id == oid)).all (fun o => o.user_id != uid) = true)
    (hi : (db.cart_items.find? (fun c => c.id == iid)).all (fun c => c.user_id != uid) = true) :
    get_order uid oid db = .error ⟨404, "Order not found"⟩ ∧
    remove_cart_item uid iid db = .error ⟨404, "Cart item not found"⟩ := by
  constructor
  · unfold get_order
    cases h : db.orders.find? (fun o => o.id == oid) with
    | none => rfl
    | some o =>
      rw [h] at ho
      simp only [Option.all_some] at ho
      simp [ho]
  · unfold remove_cart_item
    cases h : db.cart_items.find? (fun c => c.id == iid) with
    | none => rfl
    | some c =>
      rw [h] at hi
      simp only [Option.all_some] at hi
      simp [hi]

/-- C8 witness: user 1 asking for user 2's order id 10 and cart item id
20, and for the nonexistent ids 99, receives the same 404 in all cases. -/
theorem ownership_not_found_witness :
    get_order 1 10 dbOwn = .error ⟨404, "Order not found"⟩ ∧
    remove_cart_item 1 20 dbOwn = .error ⟨404, "Cart item not found"⟩ ∧
    get_order 1 99 dbOwn = .error ⟨404, "Order not found"⟩ ∧
    remove_cart_item 1 99 dbOwn = .error ⟨404, "Cart item not found"⟩ := by
  refine ⟨(ownership_not_found dbOwn 1 10 20 (by decide) (by decide)).1,
    (ownership_not_found dbOwn 1 10 20 (by decide) (by decide)).2,
    (ownership_not_found dbOwn 1 99 99 (by decide) (by decide)).1,
    (ownership_not_found dbOwn 1 99 99 (by decide) (by decide)).2⟩

/-- C10: PUT /products overwrites every product column with the request
body's (validated) values, so fields the caller omits are reset to the
schema defaults — an update naming only name and price sets description
and sku to null, currency to USD, and stock to 0. -/
theorem update_product_resets_omitted (db : DB) (pid : Nat) (p : Product)
    (n : String) (pr : ℚ)
    (hp : db.products.find? (fun q => q.id == pid) = some p) :
    ∃ db2 p2,
      update_product pid (ProductBody.validate (bodyNamePrice n pr)) db = .ok (db2, p2) ∧
      p2.id = p.id ∧ p2.name = n ∧ p2.price = pr ∧
      p2.description = none ∧ p2.sku = none ∧
      p2.currency = some "USD" ∧ p2.stock = some 0 ∧
      db2.products = db.products.map (fun q => if q.id == pid then p2 else q) ∧
      db2.cart_items = db.cart_items ∧ db2.orders = db.orders ∧
      db2.order_items = db.order_items := by
  unfold update_product
  rw [hp]
  exact ⟨_, _, rfl, rfl, rfl, rfl, rfl, rfl, rfl, rfl, rfl, rfl, rfl, rfl⟩

/-- C10 witness: updating `prodP` (stock 5) with a body naming only name
and price zeroes the stock and resets the other omitted fields. -/
theorem update_product_resets_omitted_witness :
    ∃ db2 p2,
      update_product 1 (ProductBody.validate (bodyNamePrice "Q" 99)) dbMain = .ok (db2, p2) ∧
      p2.id = prodP.id ∧ p2.name = "Q" ∧ p2.price = 99 ∧
      p2.description = none ∧ p2.sku = none ∧
      p2.currency = some "USD" ∧ p2.stock = some 0 ∧
      db2.products = dbMain.products.map (fun q => if q.id == 1 then p2 else q) ∧
      db2.cart_items = dbMain.cart_items ∧ db2.orders = dbMain.orders ∧
      db2.order_items = dbMain.order_items :=
  update_product_resets_omitted dbMain 1 prodP "Q" 99 (by decide)

lemma stocksNonneg_products_eq {db db2 : DB} (hp : db2.products = db.products)
    (h : StocksNonneg db) : StocksNonneg db2 := by
  intro p hpmem
  exact h p (hp ▸ hpmem)

lemma stockOk_decStock (s : Option Int) (q : Int) : stockOk (decStock s q) = true := by
  cases s with
  | none => rfl
  | some v =>
    simp only [decStock, stockOk, decide_eq_true_eq]
    exact le_max_left 0 _

lemma createItems_stocksNonneg (oid : Nat) (l : List CartItem) (db : DB)
    (h : StocksNonneg db) : StocksNonneg (createItems oid l db) := by
  induction l generalizing db with
  | nil => exact h
  | cons ci rest ih =>
    simp only [createItems]
    split
    · exact ih db h
    · apply ih
      intro p hp
      obtain ⟨q, hq, rfl⟩ := List.mem_map.mp hp
      split
      · exact stockOk_decStock _ _
      · exact h q hq

lemma checkoutSuccess_products (uid : Nat) (db : DB) (cart : List CartItem)
    (T : ℚ) (C : String) :
    (checkoutSuccess uid db cart T C).2.products =
      (createItems db.next_order_id cart
        { db with
          orders := db.orders ++ [⟨db.next_order_id, uid, T, C, "PAID", none⟩],
          next_order_id := db.next_order_id + 1 }).products := by
  unfold checkoutSuccess
  dsimp only

lemma checkoutSuccess_stocksNonneg (uid : Nat) (db : DB) (cart : List CartItem)
    (T : ℚ) (C : String) (h : StocksNonneg db) :
    StocksNonneg (checkoutSuccess uid db cart T C).2 :=
  stocksNonneg_products_eq (checkoutSuccess_products uid db cart T C)
    (createItems_stocksNonneg _ _ _ (stocksNonneg_products_eq rfl h))

lemma add_to_cart_ok_products {uid pid : Nat} {qty : Int} {db : DB} {r : DB × CartItemOut}
    (h : add_to_cart uid pid qty db = .ok r) : r.1.products = db.products := by
  unfold add_to_cart at h
  split at h
  · cases h
  · split at h
    · cases h
    · split at h
      · cases h
      · split at h
        · injection h with h
          rw [← h]
        · injection h with h
          rw [← h]

lemma update_cart_item_ok_products {uid iid : Nat} {qty : Int} {db : DB} {r : DB × CartItemOut}
    (h : update_cart_item uid iid qty db = .ok r) : r.1.products = db.products := by
  unfold update_cart_item at h
  split at h
  · cases h
  · split at h
    · cases h
    · split at h
      · cases h
      · split at h
        · cases h
        · split at h
          · cases h
          · injection h with h
            rw [← h]

lemma remove_cart_item_ok_products {uid iid : Nat} {db db2 : DB}
    (h : remove_cart_item uid iid db = .ok db2) : db2.products = db.products := by
  unfold remove_cart_item at h
  split at h
  · cases h
  · split at h
    · cases h
    · injection h with h
      rw [← h]

lemma checkout_snd_eq (uid : Nat) (db : DB) :
    (checkout uid db).2 = db ∨
    ∃ T C, (checkout uid db).2 =
      (checkoutSuccess uid db (db.cart_items.filter (fun ci => ci.user_id == uid)) T C).2 := by
  unfold checkout
  dsimp only
  split
  · exact .inl rfl
  · split
    · exact .inl rfl
    · next T C heq => exact .inr ⟨T, C, rfl⟩

lemma applyCartOp_stocksNonneg (op : CartOp) (db : DB) (h : StocksNonneg db) :
    StocksNonneg (applyCartOp op db) := by
  cases op with
  | addCart uid pid qty =>
    simp only [applyCartOp]
    split
    · next r hr => exact stocksNonneg_products_eq (add_to_cart_ok_products hr) h
    · exact h
  | setQty uid iid qty =>
    simp only [applyCartOp]
    split
    · next r hr => exact stocksNonneg_products_eq (update_cart_item_ok_products hr) h
    · exact h
  | removeItem uid iid =>
    simp only [applyCartOp]
    split
    · next db2 hr => exact stocksNonneg_products_eq (remove_cart_item_ok_products hr) h
    · exact h
  | clearAll uid => exact stocksNonneg_products_eq rfl h
  | doCheckout uid =>
    simp only [applyCartOp]
    rcases checkout_snd_eq uid db with h2 | ⟨T, C, h2⟩
    · rw [h2]; exact h
    · rw [h2]; exact checkoutSuccess_stocksNonneg _ _ _ _ _ h

/-- C5 counterexample: `ProductCreate` does not validate stock
nonnegativity, so a single create operation yields a product whose
tracked stock is negative — refuting the claim for arbitrary operation
sequences. -/
theorem stock_nonneg_counterexample :
    ¬ StocksNonneg (create_product reqNeg emptyDB).1 := by
  with_unfolding_all decide

/-- C5 amended: product create/update can set a negative stock directly
(the schema has no lower bound), but under every sequence of cart and
checkout operations a nonnegative tracked stock stays nonnegative:
checkout replaces a tracked stock by `max 0 (stock - qty)`, flooring at
zero rather than going negative or erroring. -/
theorem stock_nonneg_invariant (db : DB) (h : StocksNonneg db) (ops : List CartOp) :
    StocksNonneg (ops.foldl (fun d op => applyCartOp op d) db) ∧
    ∀ s q : Int, decStock (some s) q = some (max 0 (s - q)) := by
  refine ⟨?_, fun s q => rfl⟩
  induction ops generalizing db with
  | nil => exact h
  | cons op rest ih =>
    simp only [List.foldl_cons]
    exact ih _ (applyCartOp_stocksNonneg op db h)

/-- C5 witness: checking out the three-unit cart of `dbMain` (stock 5)
keeps all tracked stocks nonnegative. -/
theorem stock_nonneg_invariant_witness :
    StocksNonneg ([CartOp.doCheckout 1].foldl (fun d op => applyCartOp op d) dbMain) ∧
    (∀ s q : Int, decStock (some s) q = some (max 0 (s - q))) :=
  stock_nonneg_invariant dbMain (by decide) [CartOp.doCheckout 1]

lemma pairwise_map_preserve {l : List CartItem} (f : CartItem → CartItem)
    (hf : ∀ ci, (f ci).user_id = ci.user_id ∧ (f ci).product_id = ci.product_id)
    (h : l.Pairwise fun a b => a.user_id ≠ b.user_id ∨ a.product_id ≠ b.product_id) :
    (l.map f).Pairwise fun a b => a.user_id ≠ b.user_id ∨ a.product_id ≠ b.product_id := by
  rw [List.pairwise_map]
  refine h.imp ?_
  intro a b hab
  rcases hab with h1 | h1
  · left
    rw [(hf a).1, (hf b).1]
    exact h1
  · right
    rw [(hf a).2, (hf b).2]
    exact h1

lemma cartUnique_filter (db : DB) (p : CartItem → Bool) (h : CartUnique db) :
    (db.cart_items.filter p).Pairwise
      (fun a b => a.user_id ≠ b.user_id ∨ a.product_id ≠ b.product_id) :=
  List.Pairwise.sublist (List.filter_sublist _) h

lemma add_to_cart_ok_cart {uid pid : Nat} {qty : Int} {db : DB} {r : DB × CartItemOut}
    (h : add_to_cart uid pid qty db = .ok r) :
    (∃ ex, db.cart_items.find? (fun ci => ci.user_id == uid && ci.product_id == pid) = some ex ∧
      r.1.cart_items = db.cart_items.map
        (fun ci => if ci.id == ex.id then { ci with quantity := ex.quantity + qty } else ci)) ∨
    (db.cart_items.find? (fun ci => ci.user_id == uid && ci.product_id == pid) = none ∧
      r.1.cart_items = db.cart_items ++ [⟨db.next_cart_item_id, uid, pid, qty⟩]) := by
  unfold add_to_cart at h
  split at h
  · cases h
  · split at h
    · cases h
    · split at h
      · cases h
      · split at h
        · next ex hex =>
          injection h with h
          refine .inl ⟨ex, hex, ?_⟩
          rw [← h]
        · next hex =>
          injection h with h
          refine .inr ⟨hex, ?_⟩
          rw [← h]

lemma update_cart_item_ok_cart {uid iid : Nat} {qty : Int} {db : DB} {r : DB × CartItemOut}
    (h : update_cart_item uid iid qty db = .ok r) :
    r.1.cart_items = db.cart_items.map
      (fun c => if c.id == iid then { c with quantity := qty } else c) := by
  unfold update_cart_item at h
  split at h
  · cases h
  · split at h
    · cases h
    · split at h
      · cases h
      · split at h
        · cases h
        · split at h
          · cases h
          · injection h with h
            rw [← h]

lemma remove_cart_item_ok_cart {uid iid : Nat} {db db2 : DB}
    (h : remove_cart_item uid iid db = .ok db2) :
    db2.cart_items = db.cart_items.filter (fun c => c.id != iid) := by
  unfold remove_cart_item at h
  split at h
  · cases h
  · split at h
    · cases h
    · injection h with h
      rw [← h]

/-- C6: at most one CartItem row exists per (user, product) pairing and
every cart operation preserves this; adding a pairing already in the cart
merges by summing quantities into the existing row instead of creating a
second row. -/
theorem cart_pairing_unique (db : DB) (h : CartUnique db) :
    (∀ op : CartOp, CartUnique (applyCartOp op db)) ∧
    (∀ uid pid : Nat, ∀ qty : Int, ∀ ex : CartItem,
      db.cart_items.find? (fun ci => ci.user_id == uid && ci.product_id == pid) = some ex →
      ∀ db2 out, add_to_cart uid pid qty db = .ok (db2, out) →
        out.quantity = ex.quantity + qty ∧
        db2.cart_items.length = db.cart_items.length ∧
        ∃ ci ∈ db2.cart_items, ci.id = ex.id ∧ ci.quantity = ex.quantity + qty) := by
  constructor
  · intro op
    cases op with
    | addCart uid pid qty =>
      simp only [applyCartOp]
      split
      · next r hr =>
        rcases add_to_cart_ok_cart hr with ⟨ex, hex, hcart⟩ | ⟨hex, hcart⟩
        · unfold CartUnique
          rw [hcart]
          exact pairwise_map_preserve _ (fun ci => by constructor <;> (split <;> rfl)) h
        · unfold CartUnique
          rw [hcart, List.pairwise_append]
          refine ⟨h, List.pairwise_singleton _ _, ?_⟩
          intro a ha b hb
          simp only [List.mem_singleton] at hb
          subst hb
          have hnp := List.find?_eq_none.mp hex a ha
          simp only [Bool.and_eq_true, beq_iff_eq, not_and] at hnp
          by_cases hu : a.user_id = uid
          · exact .inr fun hp2 => hnp hu hp2
          · exact .inl fun hp2 => hu hp2
      · exact h
    | setQty uid iid qty =>
      simp only [applyCartOp]
      split
      · next r hr =>
        unfold CartUnique
        rw [update_cart_item_ok_cart hr]
        exact pairwise_map_preserve _ (fun ci => by constructor <;> (split <;> rfl)) h
      · exact h
    | removeItem uid iid =>
      simp only [applyCartOp]
      split
      · next db2 hr =>
        unfold CartUnique
        rw [remove_cart_item_ok_cart hr]
        exact cartUnique_filter db _ h
      · exact h
    | clearAll uid => exact cartUnique_filter db _ h
    | doCheckout uid =>
      simp only [applyCartOp]
      rcases checkout_snd_eq uid db with h2 | ⟨T, C, h2⟩
      · rw [h2]; exact h
      · unfold CartUnique
        rw [h2, checkoutSuccess_cart_items]
        exact cartUnique_filter db _ h
  · intro uid pid qty ex hex db2 out h2
    unfold add_to_cart at h2
    split at h2
    · cases h2
    · split at h2
      · cases h2
      · split at h2
        · cases h2
        · split at h2
          · next ex2 hex2 =>
            rw [hex] at hex2
            injection hex2 with hex2
            subst hex2
            injection h2 with h2
            have hdb2 := congrArg Prod.fst h2
            have hout := congrArg Prod.snd h2
            dsimp only at hdb2 hout
            refine ⟨?_, ?_, ?_⟩
            · rw [← hout]
            · rw [← hdb2]
              exact List.length_map _ _
            · rw [← hdb2]
              have hmem : ex ∈ db.cart_items := List.mem_of_find?_eq_some hex
              refine ⟨{ ex with quantity := ex.quantity + qty }, ?_, rfl, rfl⟩
              have hfx : ({ ex with quantity := ex.quantity + qty } : CartItem) =
                  (fun ci => if ci.id == ex.id then { ci with quantity := ex.quantity + qty } else ci) ex := by
                simp
              rw [hfx]
              exact List.mem_map_of_mem _ hmem
          · next hex2 =>
            rw [hex] at hex2
            cases hex2

/-- C6 witness: adding quantities 2 then 3 for the same pairing keeps the
cart a single row holding quantity 5, and uniqueness is preserved. -/
theorem cart_pairing_unique_witness :
    CartUnique dbPair ∧
    CartUnique (applyCartOp (CartOp.addCart 1 1 3) dbPair) ∧
    (applyCartOp (CartOp.addCart 1 1 3) dbPair).cart_items = [⟨1, 1, 1, 5⟩] :=
  ⟨by decide, (cart_pairing_unique dbPair (by decide)).1 _, by with_unfolding_all decide⟩

lemma validateCart_ok_currency (db : DB) (l : List CartItem) (t : ℚ) (c : String)
    (T : ℚ) (C : String) (hv : validateCart db l t c = .ok (T, C)) :
    C = (cartCurrencies db l).foldl (fun acc oc => orCurrency oc acc) c := by
  induction l generalizing t c with
  | nil =>
    injection hv with hv
    exact (congrArg Prod.snd hv).symm
  | cons ci rest ih =>
    simp only [validateCart] at hv
    split at hv
    · cases hv
    · next product hfind =>
      split at hv
      · cases hv
      · have hrec := ih _ _ hv
        simp only [cartCurrencies, List.map_cons, List.foldl_cons]
        rw [hfind]
        exact hrec

lemma foldl_orCurrency_lastTruthy (l : List (Option String)) (d : String) :
    l.foldl (fun acc oc => orCurrency oc acc) d = (lastTruthy l).getD d := by
  induction l generalizing d with
  | nil => rfl
  | cons c rest ih =>
    simp only [List.foldl_cons, lastTruthy]
    rw [ih]
    cases hl : lastTruthy rest with
    | some s => rfl
    | none =>
      cases c with
      | none => rfl
      | some s =>
        by_cases hs : s = ""
        · simp [orCurrency, truthyOf, hs]
        · simp [orCurrency, truthyOf, hs]

/-- C7 counterexample: a cart whose items reference an EUR product and
then an empty-string-currency product checks out with currency EUR — the
last-processed item's currency does not win when it is falsy. -/
theorem checkout_currency_counterexample :
    (checkout 1 dbMixed).1.map CheckoutOut.currency = .ok "EUR" ∧
    (dbMixed.cart_items.filter (fun ci => ci.user_id == 1)).map CartItem.product_id = [1, 2] ∧
    (dbMixed.products.find? (fun p => p.id == 2)).map Product.currency = some (some "") ∧
    some "" ≠ some "EUR" := by
  with_unfolding_all decide

/-- C7 amended: the order currency is the currency of the last-processed
cart item whose product carries a truthy (non-null, non-empty) currency,
defaulting to USD when there is none; a last item with null or empty
currency is skipped rather than winning. -/
theorem checkout_currency_last_truthy (uid : Nat) (db : DB) (out : CheckoutOut) (db2 : DB)
    (hc : checkout uid db = (.ok out, db2)) :
    out.currency =
      (lastTruthy (cartCurrencies db
        (db.cart_items.filter (fun ci => ci.user_id == uid)))).getD "USD" := by
  obtain ⟨T, C, hv, hs⟩ := checkout_ok_elim uid db out db2 hc
  have hout : out = (checkoutSuccess uid db
      (db.cart_items.filter (fun ci => ci.user_id == uid)) T C).1 :=
    (congrArg Prod.fst hs).symm
  have hcur : out.currency = C := by
    rw [hout]
    rfl
  rw [hcur, validateCart_ok_currency db _ 0 "USD" T C hv, foldl_orCurrency_lastTruthy]

/-- C7 amended witness: in the EUR-then-empty cart the order currency is
EUR, the last truthy currency. -/
theorem checkout_currency_last_truthy_witness :
    (CheckoutOut.mk 1 3 "EUR" "/orders/1/invoice").currency =
      (lastTruthy (cartCurrencies dbMixed
        (dbMixed.cart_items.filter (fun ci => ci.user_id == 1)))).getD "USD" :=
  checkout_currency_last_truthy 1 dbMixed ⟨1, 3, "EUR", "/orders/1/invoice"⟩
    (checkout 1 dbMixed).2 (by with_unfolding_all decide)

lemma find?_map_id_preserve (l : List Product) (pid : Nat) (f : Product → Product)
    (hf : ∀ p, (f p).id = p.id) :
    (l.map f).find? (fun p => p.id == pid) = (l.find? (fun p => p.id == pid)).map f := by
  have hfun : ((fun p => p.id == pid) ∘ f) = (fun p => p.id == pid) := by
    funext q
    simp only [Function.comp_apply, hf q]
  rw [List.find?_map, hfun]

lemma priceName_products_map (l : List Product) (pid pidX : Nat) (qX : Int) :
    ((l.map (fun p => if p.id == pidX then { p with stock := decStock p.stock qX } else p)).find?
      (fun p => p.id == pid)).map (fun p => (p.price, p.name)) =
    (l.find? (fun p => p.id == pid)).map (fun p => (p.price, p.name)) := by
  rw [find?_map_id_preserve l pid _ (fun p => by split <;> rfl)]
  cases l.find? (fun p => p.id == pid) with
  | none => rfl
  | some q =>
    simp only [Option.map_some']
    congr 1
    split <;> rfl

lemma applyItem_priceName (oid : Nat) (ci : CartItem) (product : Product) (db : DB)
    (pid : Nat) :
    priceNameOf (applyItem oid ci product db) pid = priceNameOf db pid :=
  priceName_products_map db.products pid product.id ci.quantity

lemma applyItem_order_items (oid : Nat) (ci : CartItem) (product : Product) (db : DB) :
    (applyItem oid ci product db).order_items = db.order_items ++
      [⟨db.next_order_item_id, oid, product.id, product.name, product.price,
        ci.quantity, product.price * (ci.quantity : ℚ)⟩] := rfl

lemma createItems_items (db0 : DB) (oid : Nat) :
    ∀ (l : List CartItem) (db : DB) (t : ℚ) (c : String) (T : ℚ) (C : String),
      validateCart db0 l t c = .ok (T, C) →
      (∀ pid, priceNameOf db pid = priceNameOf db0 pid) →
      ∃ new : List OrderItem,
        (createItems oid l db).order_items = db.order_items ++ new ∧
        (∀ oi ∈ new, oi.order_id = oid ∧ oi.subtotal = oi.unit_price * (oi.quantity : ℚ)) ∧
        sumSubtotals new = T - t := by
  intro l
  induction l with
  | nil =>
    intro db t c T C hv hpn
    injection hv with hv
    have ht : t = T := congrArg Prod.fst hv
    refine ⟨[], (List.append_nil _).symm, by simp, ?_⟩
    simp [sumSubtotals, ← ht]
  | cons ci rest ih =>
    intro db t c T C hv hpn
    simp only [validateCart] at hv
    split at hv
    · cases hv
    · next product hfind0 =>
      split at hv
      · cases hv
      · have hdb : priceNameOf db ci.product_id = some (product.price, product.name) := by
          rw [hpn]
          unfold priceNameOf
          rw [hfind0]
          rfl
        obtain ⟨p2, hp2find, hp2price, hp2name⟩ :
            ∃ p2, db.products.find? (fun p => p.id == ci.product_id) = some p2 ∧
              p2.price = product.price ∧ p2.name = product.name := by
          unfold priceNameOf at hdb
          cases hf2 : db.products.find? (fun p => p.id == ci.product_id) with
          | none =>
            rw [hf2] at hdb
            cases hdb
          | some q =>
            rw [hf2] at hdb
            simp only [Option.map_some'] at hdb
            injection hdb with hdb
            exact ⟨q, rfl, congrArg Prod.fst hdb, congrArg Prod.snd hdb⟩
        simp only [createItems]
        rw [hp2find]
        dsimp only
        have hpn2 : ∀ pid, priceNameOf (applyItem oid ci p2 db) pid = priceNameOf db0 pid :=
          fun pid => (applyItem_priceName oid ci p2 db pid).trans (hpn pid)
        obtain ⟨new2, h1, h2, h3⟩ := ih (applyItem oid ci p2 db)
          (t + product.price * (ci.quantity : ℚ)) (orCurrency product.currency c) T C hv hpn2
        refine ⟨⟨db.next_order_item_id, oid, p2.id, p2.name, p2.price,
          ci.quantity, p2.price * (ci.quantity : ℚ)⟩ :: new2, ?_, ?_, ?_⟩
        · rw [h1, applyItem_order_items, List.append_assoc]
          rfl
        · intro oi hoi
          rcases List.mem_cons.mp hoi with rfl | hoi2
          · exact ⟨rfl, rfl⟩
          · exact h2 oi hoi2
        · simp only [sumSubtotals, List.map_cons, List.sum_cons] at h3 ⊢
          rw [h3, hp2price]
          ring

lemma checkoutSuccess_order_items (uid : Nat) (db : DB) (cart : List CartItem)
    (T : ℚ) (C : String) :
    (checkoutSuccess uid db cart T C).2.order_items =
      (createItems db.next_order_id cart
        { db with
          orders := db.orders ++ [⟨db.next_order_id, uid, T, C, "PAID", none⟩],
          next_order_id := db.next_order_id + 1 }).order_items := by
  unfold checkoutSuccess
  dsimp only

lemma checkoutSuccess_orders (uid : Nat) (db : DB) (cart : List CartItem)
    (T : ℚ) (C : String) :
    (checkoutSuccess uid db cart T C).2.orders =
      (db.orders ++ [(⟨db.next_order_id, uid, T, C, "PAID", none⟩ : Order)]).map
        (fun (o : Order) => if o.id == db.next_order_id then ({ o with invoice_path := some ("./invoices/invoice_order_" ++ toString db.next_order_id ++ ".pdf") } : Order) else o) := by
  unfold checkoutSuccess
  dsimp only
  rw [createItems_orders]

/-- C2: every successful checkout creates an order whose total_amount is
exactly the sum of its order items' subtotals, and every created order
item's subtotal is exactly unit_price * quantity. -/
theorem checkout_totals (uid : Nat) (db : DB) (out : CheckoutOut) (db2 : DB)
    (hfresh : ∀ oi ∈ db.order_items, oi.order_id ≠ db.next_order_id)
    (hc : checkout uid db = (.ok out, db2)) :
    ∃ o ∈ db2.orders, o.id = out.order_id ∧
      o.total_amount = sumSubtotals (db2.order_items.filter (fun oi => oi.order_id == o.id)) ∧
      ∀ oi ∈ db2.order_items, oi.order_id = o.id →
        oi.subtotal = oi.unit_price * (oi.quantity : ℚ) := by
  obtain ⟨T, C, hv, hs⟩ := checkout_ok_elim uid db out db2 hc
  have hdb2 : db2 = (checkoutSuccess uid db
      (db.cart_items.filter (fun ci => ci.user_id == uid)) T C).2 :=
    (congrArg Prod.snd hs).symm
  have hout : out.order_id = db.next_order_id := by
    have h2 : out = (checkoutSuccess uid db
        (db.cart_items.filter (fun ci => ci.user_id == uid)) T C).1 :=
      (congrArg Prod.fst hs).symm
    rw [h2]
    rfl
  obtain ⟨new, hitems, hprops, hsum⟩ := createItems_items db db.next_order_id
    (db.cart_items.filter (fun ci => ci.user_id == uid))
    { db with
      orders := db.orders ++ [⟨db.next_order_id, uid, T, C, "PAID", none⟩],
      next_order_id := db.next_order_id + 1 }
    0 "USD" T C hv (fun _ => rfl)
  have hoi2 : db2.order_items = db.order_items ++ new := by
    rw [hdb2, checkoutSuccess_order_items, hitems]
  have hfilter : db2.order_items.filter (fun oi => oi.order_id == db.next_order_id) = new := by
    rw [hoi2, List.filter_append]
    have hleft : db.order_items.filter (fun oi => oi.order_id == db.next_order_id) = [] := by
      rw [List.filter_eq_nil_iff]
      intro oi hoi
      simp only [beq_iff_eq]
      exact hfresh oi hoi
    have hright : new.filter (fun oi => oi.order_id == db.next_order_id) = new := by
      rw [List.filter_eq_self]
      intro oi hoi
      simp only [beq_iff_eq]
      exact (hprops oi hoi).1
    rw [hleft, hright, List.nil_append]
  refine ⟨⟨db.next_order_id, uid, T, C, "PAID",
    some ("./invoices/invoice_order_" ++ toString db.next_order_id ++ ".pdf")⟩,
    ?_, hout.symm, ?_, ?_⟩
  · rw [hdb2, checkoutSuccess_orders]
    have hmem : (⟨db.next_order_id, uid, T, C, "PAID", none⟩ : Order) ∈
        db.orders ++ [⟨db.next_order_id, uid, T, C, "PAID", none⟩] :=
      List.mem_append_right _ (List.mem_singleton.mpr rfl)
    have himg := List.mem_map_of_mem (fun o => if o.id == db.next_order_id then ({ o with invoice_path := some ("./invoices/invoice_order_" ++ toString db.next_order_id ++ ".pdf") } : Order) else o) hmem
    simp only [beq_self_eq_true, if_true] at himg
    exact himg
  · dsimp only
    rw [hfilter, hsum]
    ring
  · intro oi hoi hord
    dsimp only at hord
    rw [hoi2] at hoi
    rcases List.mem_append.mp hoi with hold | hnew
    · exact absurd hord (hfresh oi hold)
    · exact (hprops oi hnew).2

/-- C2 witness: the checkout of `dbMain` (3 units at price 10) yields an
order with total 30 equal to the sum of its single item's subtotal. -/
theorem checkout_totals_witness :
    ∃ o ∈ (checkout 1 dbMain).2.orders, o.id = 1 ∧
      o.total_amount = sumSubtotals ((checkout 1 dbMain).2.order_items.filter
        (fun oi => oi.order_id == o.id)) ∧
      ∀ oi ∈ (checkout 1 dbMain).2.order_items, oi.order_id = o.id →
        oi.subtotal = oi.unit_price * (oi.quantity : ℚ) := by
  have h := checkout_totals 1 dbMain ⟨1, 30, "USD", "/orders/1/invoice"⟩ (checkout 1 dbMain).2
    (by decide) (by with_unfolding_all decide)
  exact h

/-- C4: deleting a product cascade-deletes every OrderItem snapshot
referencing it (`Product.order_items` carries `cascade="all, delete"`,
`main.py` line 79), so the frozen snapshot does not survive product
deletion: deleting `dbHist`'s only product leaves its order with total 30
but no items.  A price update, by contrast, leaves order_items intact. -/
theorem product_delete_cascades_order_items :
    dbHist.order_items.length = 1 ∧
    (delete_product 1 dbHist).map DB.order_items = .ok [] ∧
    (delete_product 1 dbHist).map (fun d => d.orders.map Order.total_amount) = .ok [30] ∧
    (update_product 1 (ProductBody.validate (bodyNamePrice "P2" 99)) dbHist).map
      (fun r => r.1.order_items) = .ok dbHist.order_items := by
  with_unfolding_all decide

end Shop
